import Mathlib

/-!
Shallow embedding of `usbioctl.c` (ao-kenji/usbioctl): a command-line tool
that drives a Km2Net USB-IO GPIO adapter over HID reports.

Modelling conventions:
* C `unsigned char` values are `Nat` with `% 256` applied where the C code
  performs a narrowing store or wraps on increment.
* File descriptors are `Nat`.
* Syscall results come from an explicit `Env` record: `none` models a
  syscall returning `-1`, `some x` a successful return.
* `err(1, ...)` / `exit(n)` become explicit exit codes threaded through
  `Except` or returned by `main_run`.
* Preprocessor-disabled code (`#if 0 ... #endif` blocks) is NOT part of the
  compiled program and is not embedded as behaviour; where a claim refers to
  such a block this is made explicit at the theorem.
-/

namespace Usbioctl

/-- `#define DEFAULT_PORT 2` (usbioctl.c line 30). -/
def DEFAULT_PORT : Nat := 2

/-- `#define USBIO2_RW 0x20` (usbioctl.c line 35): the single USB-IO 2.0
read/write opcode. -/
def USBIO2_RW : Nat := 0x20

/-- `#define USBIO_PORT2_MASK 0x0f` (usbioctl.c line 37): low-nibble mask
applied to the data byte when the selected port is 2. -/
def USBIO_PORT2_MASK : Nat := 0x0f

/-- One row of the `usbio_models` table (usbioctl.c lines 47-58):
vendor id, product id and protocol version (1 or 2). -/
structure Model where
  vendor : Nat
  product : Nat
  protocol_version : Int
deriving Repr, DecidableEq

/-- The static allow-list `usbio_models` (usbioctl.c lines 51-58).  The two
protocol-version-1 entries in the source sit inside an `#if 0` block
("not supported yet") and are not compiled, so the table has exactly the
two Km2Net USB-IO 2.0 entries. -/
def usbio_models : List Model :=
  [⟨0x1352, 0x0120, 2⟩, ⟨0x1352, 0x0121, 2⟩]

/-- The linear scan inside `usbio_check` (usbioctl.c lines 88-93): walk the
model table; on the first row whose vendor and product both match, return
its protocol version; if no row matches, fall through to `return -1`. -/
def usbio_check_find (v p : Nat) : List Model → Int
  | [] => -1
  | m :: ms =>
      if v = m.vendor ∧ p = m.product then m.protocol_version
      else usbio_check_find v p ms

/-- Pure core of `usbio_check` (usbioctl.c lines 75-94), applied to the
vendor/product numbers returned by the `USB_GET_DEVICEINFO` ioctl: protocol
version of the matching allow-list row, or `-1` when no row matches. -/
def usbio_check (v p : Nat) : Int := usbio_check_find v p usbio_models

/-- The 64-byte protocol-version-2 report assembled by `usbio_write2`
(usbioctl.c lines 140-146): `memset(buf, 0, 64)` then
`buf[0] = USBIO2_RW; buf[1] = (unsigned char)port; buf[2] = *data;
buf[63] = seqno;`.  Each store narrows to `unsigned char`. -/
def mkReport2 (port data seq : Nat) : List Nat :=
  ((((List.replicate 64 0).set 0 USBIO2_RW).set 1 (port % 256)).set 2
      (data % 256)).set 63 (seq % 256)

/-- Program state threaded through the codec: the process-wide sequence
counter `seqno` (usbioctl.c line 61, an `unsigned char`, so kept below 256)
and the trace of report buffers written so far. -/
structure ProgState where
  seqno : Nat
  writes : List (List Nat)
deriving Repr, DecidableEq

/-- `usbio_write2` (usbioctl.c lines 137-180).  Builds the 64-byte report,
issues one `write`; a `write` returning `-1` is `err(1, "write")`, i.e. the
process exits with code 1 (`Except.error 1`).  The read-polling loop at
lines 158-176 sits inside `#if 0 ... #endif` and is compiled out, so the
function performs no `read` at all: the `reads` stream is never consumed
(the second component of the result, the number of reads consumed, is 0)
and `ret` keeps the value returned by `write`.  On return, `seqno++` wraps
at 256. -/
def usbio_write2 (writeRet : Option Nat) (reads : List (Option (List Nat)))
    (port data : Nat) (s : ProgState) : Except Nat (Nat × Nat × ProgState) :=
  let buf := mkReport2 port data s.seqno
  match writeRet with
  | none => Except.error 1
  | some ret =>
      Except.ok (ret, 0,
        { seqno := (s.seqno + 1) % 256, writes := s.writes ++ [buf] })

/-- Environment supplying the results of the program's syscalls:
`uhidOpen i` is the result of `open("/dev/uhid<i>", O_RDWR)` (`none` = `-1`),
`overrideOpen` that of opening the `-f` device path, `ioctl fd` the
vendor/product pair delivered by `USB_GET_DEVICEINFO` (`none` = ioctl
failure), and `w1`/`w2` the return values of the first and second `write`
(`none` = `-1`). -/
structure Env where
  uhidOpen : Nat → Option Nat
  overrideOpen : Option Nat
  ioctl : Nat → Option (Nat × Nat)
  w1 : Option Nat
  w2 : Option Nat

/-- Observable outcome of one `usbio_open` attempt (usbioctl.c lines
99-110): the `open` itself failed; the identity ioctl failed inside
`usbio_check` (that is `err(1, "ioctl")`, fatal); the device answered but
its vendor/product pair is not in the allow-list, so the descriptor is
closed (`close(fd)` at line 107) and `-1` returned; or the pair matched and
the descriptor is kept and returned. -/
inductive OpenOutcome where
  | openFailed
  | fatalIoctl
  | mismatch (fd : Nat)
  | matched (fd : Nat)
deriving Repr, DecidableEq

/-- `usbio_open` (usbioctl.c lines 99-110) against a given `open` result and
ioctl oracle: open the device, run `usbio_check` on the descriptor, keep the
descriptor exactly when the check does not return `-1`. -/
def usbio_open_io (openRes : Option Nat) (ioctl : Nat → Option (Nat × Nat)) :
    OpenOutcome :=
  match openRes with
  | none => .openFailed
  | some fd =>
      match ioctl fd with
      | none => .fatalIoctl
      | some (v, p) =>
          if usbio_check v p ≠ -1 then .matched fd else .mismatch fd

/-- Fatal terminations before any report is written: `err(1, "ioctl")` inside
`usbio_check`, and the `exit(1)` after the locator exhausts `/dev/uhid0` ..
`/dev/uhid9` (usbioctl.c lines 129-131).  Both carry exit code 1. -/
inductive Fatal where
  | ioctlFail
  | notFound
deriving Repr, DecidableEq

/-- Exit code of a fatal termination: always 1. -/
def Fatal.exitCode : Fatal → Nat
  | .ioctlFail => 1
  | .notFound => 1

/-- Loop body of `usbio_lookup` (usbioctl.c lines 121-127), written with
explicit fuel: the C loop runs `i` from 0 while `i < 10`, so the initial
call is `usbio_lookup_go env 0 10` and fuel counts the remaining
iterations. -/
def usbio_lookup_go (env : Env) : Nat → Nat → Except Fatal Nat
  | _, 0 => Except.error .notFound
  | i, fuel + 1 =>
      match usbio_open_io (env.uhidOpen i) env.ioctl with
      | .matched fd => Except.ok fd
      | .fatalIoctl => Except.error .ioctlFail
      | _ => usbio_lookup_go env (i + 1) fuel

/-- `usbio_lookup` (usbioctl.c lines 116-132): try `/dev/uhid0` ..
`/dev/uhid9` in order, return the first descriptor that opens and matches
the allow-list; print a diagnostic and `exit(1)` when all ten candidates
fail. -/
def usbio_lookup (env : Env) : Except Fatal Nat := usbio_lookup_go env 0 10

/-- Validity of the `-p` argument (usbioctl.c lines 204-209): `atoi(optarg)`
must be 1 or 2, otherwise `usage()` is called, which exits with code 2. -/
def pOK : Option Int → Bool
  | none => true
  | some v => v = 1 ∨ v = 2

/-- Descriptor acquisition in `main` (usbioctl.c lines 224-232): with `-f`,
`usbio_open` on the given path, `exit(1)` when it fails or mismatches;
without `-f`, `usbio_lookup`.  `Except.error 1` stands for the fatal exits,
all of which carry code 1. -/
def acquire (fFlag : Bool) (env : Env) : Except Nat Nat :=
  if fFlag then
    match usbio_open_io env.overrideOpen env.ioctl with
    | .matched fd => Except.ok fd
    | _ => Except.error 1
  else
    match usbio_lookup env with
    | .ok fd => Except.ok fd
    | .error f => Except.error f.exitCode

/-- `main` (usbioctl.c lines 185-270) over parsed command-line inputs:
`pArg` is the raw `-p` value when given, `nPositional` the positional
argument count after `getopt`, `value` the `atoi` of the value argument
already narrowed to `unsigned char`.  Returns the process exit code and the
final program state.  Flow: `-p` validation and argument-count check exit 2
via `usage()`; device acquisition failures exit 1; `data` is masked with
`USBIO_PORT2_MASK` iff the port is 2, written, then after `sleep(3)` the
value 0 is masked the same way and written; success exits 0. -/
def main_run (fFlag : Bool) (pArg : Option Int) (nPositional : Nat)
    (value : Nat) (env : Env) (s0 : ProgState) : Nat × ProgState :=
  if pOK pArg = false then (2, s0)
  else
    let port : Nat := (match pArg with
      | some v => v
      | none => (DEFAULT_PORT : Int)).toNat
    if nPositional ≠ 1 then (2, s0)
    else
      let data := value % 256
      match acquire fFlag env with
      | .error c => (c, s0)
      | .ok _fd =>
          let d1 := if port = 2 then data &&& USBIO_PORT2_MASK else data
          match usbio_write2 env.w1 [] port d1 s0 with
          | .error c => (c, s0)
          | .ok (_, _, s1) =>
              let d2 := if port = 2 then 0 &&& USBIO_PORT2_MASK else 0
              match usbio_write2 env.w2 [] port d2 s1 with
              | .error c => (c, s1)
              | .ok (_, _, s2) => (0, s2)

/-- Modelled from the spec: no protocol-version-1 writer exists in
usbioctl.c — the V1 rows of the model table are disabled ("not supported
yet") and no `usbio_write1` function is present.  Per the spec's V1
framing, the 8-byte report carries byte 0 = write-port-0 (0x01) or
write-port-1 (0x02) opcode according to the selected port, byte 1 = data
value, byte 7 = current sequence number, all other bytes zero. -/
def mkReport1 (port data seq : Nat) : List Nat :=
  [if port = 0 then 0x01 else 0x02, data % 256, 0, 0, 0, 0, 0, seq % 256]

/-! ## Helper lemmas -/

lemma mkReport2_length (port data seq : Nat) :
    (mkReport2 port data seq).length = 64 := by
  simp [mkReport2]

lemma mkReport2_get0 (port data seq : Nat) :
    (mkReport2 port data seq)[0]? = some USBIO2_RW := by
  unfold mkReport2
  rw [List.getElem?_set_ne (by omega), List.getElem?_set_ne (by omega),
    List.getElem?_set_ne (by omega),
    List.getElem?_set_eq_of_lt _ (by simp)]

lemma mkReport2_get1 (port data seq : Nat) :
    (mkReport2 port data seq)[1]? = some (port % 256) := by
  unfold mkReport2
  rw [List.getElem?_set_ne (by omega), List.getElem?_set_ne (by omega),
    List.getElem?_set_eq_of_lt _ (by simp)]

lemma mkReport2_get2 (port data seq : Nat) :
    (mkReport2 port data seq)[2]? = some (data % 256) := by
  unfold mkReport2
  rw [List.getElem?_set_ne (by omega),
    List.getElem?_set_eq_of_lt _ (by simp)]

lemma mkReport2_get63 (port data seq : Nat) :
    (mkReport2 port data seq)[63]? = some (seq % 256) := by
  unfold mkReport2
  rw [List.getElem?_set_eq_of_lt _ (by simp)]

lemma mkReport2_get_other (port data seq i : Nat) (h : i < 64)
    (h0 : i ≠ 0) (h1 : i ≠ 1) (h2 : i ≠ 2) (h63 : i ≠ 63) :
    (mkReport2 port data seq)[i]? = some 0 := by
  unfold mkReport2
  rw [List.getElem?_set_ne (by omega), List.getElem?_set_ne (by omega),
    List.getElem?_set_ne (by omega), List.getElem?_set_ne (by omega),
    List.getElem?_replicate]
  simp [h]

lemma usbio_check_of_mem (m : Model) (hm : m ∈ usbio_models) :
    usbio_check m.vendor m.product = m.protocol_version := by
  simp [usbio_models] at hm
  rcases hm with h | h <;> subst h <;> rfl

lemma usbio_check_not_mem (v p : Nat)
    (h : ∀ m ∈ usbio_models, ¬(m.vendor = v ∧ m.product = p)) :
    usbio_check v p = -1 := by
  have h1 := h ⟨0x1352, 0x0120, 2⟩ (by simp [usbio_models])
  have h2 := h ⟨0x1352, 0x0121, 2⟩ (by simp [usbio_models])
  simp only [usbio_check, usbio_models, usbio_check_find]
  rw [if_neg (by tauto), if_neg (by tauto)]

/-- A candidate is skipped by the locator loop when its open fails or the
opened device mismatches the allow-list (and is closed). -/
def skipped (env : Env) (i : Nat) : Prop :=
  usbio_open_io (env.uhidOpen i) env.ioctl = .openFailed ∨
  ∃ fd, usbio_open_io (env.uhidOpen i) env.ioctl = .mismatch fd

instance (env : Env) (i : Nat) : Decidable (skipped env i) := by
  unfold skipped
  cases usbio_open_io (env.uhidOpen i) env.ioctl <;>
    first
    | exact .isTrue (Or.inl rfl)
    | exact .isTrue (Or.inr ⟨_, rfl⟩)
    | exact .isFalse (by rintro (h | ⟨fd, h⟩) <;> simp_all)

lemma usbio_lookup_go_ok (env : Env) :
    ∀ fuel a fd, usbio_lookup_go env a fuel = Except.ok fd →
      ∃ i, a ≤ i ∧ i < a + fuel ∧
        usbio_open_io (env.uhidOpen i) env.ioctl = .matched fd ∧
        ∀ j, a ≤ j → j < i → skipped env j := by
  intro fuel
  induction fuel with
  | zero => intro a fd h; simp [usbio_lookup_go] at h
  | succ n ih =>
      intro a fd h
      unfold usbio_lookup_go at h
      cases ho : usbio_open_io (env.uhidOpen a) env.ioctl with
      | matched fd0 =>
          rw [ho] at h
          obtain rfl : fd0 = fd := Except.ok.inj h
          exact ⟨a, le_refl a, by omega, ho, fun j hj1 hj2 => by omega⟩
      | fatalIoctl => rw [ho] at h; simp at h
      | openFailed =>
          rw [ho] at h
          obtain ⟨i, hi1, hi2, hi3, hi4⟩ := ih (a + 1) fd h
          refine ⟨i, by omega, by omega, hi3, fun j hj1 hj2 => ?_⟩
          rcases Nat.eq_or_lt_of_le hj1 with rfl | hlt
          · exact Or.inl ho
          · exact hi4 j hlt hj2
      | mismatch fd1 =>
          rw [ho] at h
          obtain ⟨i, hi1, hi2, hi3, hi4⟩ := ih (a + 1) fd h
          refine ⟨i, by omega, by omega, hi3, fun j hj1 hj2 => ?_⟩
          rcases Nat.eq_or_lt_of_le hj1 with rfl | hlt
          · exact Or.inr ⟨fd1, ho⟩
          · exact hi4 j hlt hj2

lemma usbio_lookup_go_err (env : Env) :
    ∀ fuel a, (∀ i, a ≤ i → i < a + fuel → skipped env i) →
      usbio_lookup_go env a fuel = Except.error .notFound := by
  intro fuel
  induction fuel with
  | zero => intro a _; rfl
  | succ n ih =>
      intro a h
      unfold usbio_lookup_go
      rcases h a (le_refl a) (by omega) with h0 | ⟨fd, h0⟩ <;>
        rw [h0] <;> exact ih (a + 1) (fun i hi1 hi2 => h i (by omega) (by omega))

/-! ## Claim theorems -/

/-- C1: for every port, data value and current sequence number (each an
in-range byte), the V2 write report built by `usbio_write2` is a 64-byte
buffer with byte 0 the fixed read/write opcode 0x20, byte 1 the port
selector (in this program the selector is the port number itself:
`buf[1] = (unsigned char)port`), byte 2 the data value, byte 63 the current
sequence number, and every other byte zero; and `usbio_write2` writes
exactly this buffer. -/
theorem usbio_write2_report_encoding (port data seq wr : Nat)
    (writes0 : List (List Nat))
    (hp : port < 256) (hd : data < 256) (hs : seq < 256) :
    (mkReport2 port data seq).length = 64 ∧
    (mkReport2 port data seq)[0]? = some USBIO2_RW ∧
    (mkReport2 port data seq)[1]? = some port ∧
    (mkReport2 port data seq)[2]? = some data ∧
    (mkReport2 port data seq)[63]? = some seq ∧
    (∀ i, i < 64 → i ≠ 0 → i ≠ 1 → i ≠ 2 → i ≠ 63 →
        (mkReport2 port data seq)[i]? = some 0) ∧
    usbio_write2 (some wr) [] port data ⟨seq, writes0⟩ =
      Except.ok (wr, 0, ⟨(seq + 1) % 256, writes0 ++ [mkReport2 port data seq]⟩) := by
  refine ⟨mkReport2_length port data seq, mkReport2_get0 port data seq, ?_, ?_, ?_,
    fun i hi h0 h1 h2 h63 => mkReport2_get_other port data seq i hi h0 h1 h2 h63, rfl⟩
  · rw [mkReport2_get1, Nat.mod_eq_of_lt hp]
  · rw [mkReport2_get2, Nat.mod_eq_of_lt hd]
  · rw [mkReport2_get63, Nat.mod_eq_of_lt hs]

/-- C1 witness: the spec's own example, port 1, value 0x0A, sequence 3. -/
theorem usbio_write2_report_encoding_witness :
    (1 < 256 ∧ 10 < 256 ∧ 3 < 256) ∧
    ((mkReport2 1 10 3)[0]? = some 0x20 ∧ (mkReport2 1 10 3)[1]? = some 1 ∧
      (mkReport2 1 10 3)[2]? = some 10 ∧ (mkReport2 1 10 3)[63]? = some 3) :=
  ⟨⟨by decide, by decide, by decide⟩,
    (usbio_write2_report_encoding 1 10 3 64 [] (by decide) (by decide)
      (by decide)).2.1,
    (usbio_write2_report_encoding 1 10 3 64 [] (by decide) (by decide)
      (by decide)).2.2.1,
    (usbio_write2_report_encoding 1 10 3 64 [] (by decide) (by decide)
      (by decide)).2.2.2.1,
    (usbio_write2_report_encoding 1 10 3 64 [] (by decide) (by decide)
      (by decide)).2.2.2.2.1⟩

/-- C2: every call to `usbio_write2` that returns leaves the process-wide
sequence counter at its previous value plus 1 modulo 256, for every
starting value and independently of the reply stream. -/
theorem seqno_increments_mod256 (writeRet : Option Nat)
    (reads : List (Option (List Nat))) (port data ret rc : Nat)
    (s s' : ProgState)
    (h : usbio_write2 writeRet reads port data s = Except.ok (ret, rc, s')) :
    s'.seqno = (s.seqno + 1) % 256 := by
  cases writeRet with
  | none => simp [usbio_write2] at h
  | some r =>
      simp only [usbio_write2, Except.ok.injEq, Prod.mk.injEq] at h
      obtain ⟨-, -, h3⟩ := h
      rw [← h3]

/-- C2 witness: starting at 255 the counter wraps to 0. -/
theorem seqno_increments_mod256_witness :
    (usbio_write2 (some 64) [] 2 15 ⟨255, []⟩ =
      Except.ok (64, 0, (⟨0, [mkReport2 2 15 255]⟩ : ProgState))) ∧
    (⟨0, [mkReport2 2 15 255]⟩ : ProgState).seqno = (255 + 1) % 256 :=
  ⟨rfl, seqno_increments_mod256 (some 64) [] 2 15 64 0 ⟨255, []⟩ _ rfl⟩

/-- C3 counterexample: with sequence number 3 just sent and a reply stream
whose first reply carries trailing sequence byte 4 (non-matching) and whose
second carries 3 (matching), the compiled `usbio_write2` consumes zero
reads — the result's middle component, the consumed-read count, is 0 — so
the non-matching reply is never discarded and polling never continues to
the matching one: the poll loop of usbioctl.c lines 158-176 sits inside an
`#if 0` block and is compiled out. -/
theorem usbio_write2_no_polling_cex :
    (mkReport2 9 9 4)[63]? ≠ some 3 ∧ (mkReport2 9 9 3)[63]? = some 3 ∧
    usbio_write2 (some 64) [some (mkReport2 9 9 4), some (mkReport2 9 9 3)]
        2 15 ⟨3, []⟩ = Except.ok (64, 0, ⟨4, [mkReport2 2 15 3]⟩) :=
  ⟨by decide, by decide, rfl⟩

/-- C3 amended: the read-polling loop of usbioctl.c lines 158-176 is
disabled by `#if 0` and compiled out, so after sending a command
`usbio_write2` performs no reads at all: its behaviour is independent of the
reply stream, a successful write makes it return the write result with zero
reads consumed, and a failed write is fatal (`err(1, "write")`). -/
theorem usbio_write2_no_polling (writeRet : Option Nat)
    (reads : List (Option (List Nat))) (port data : Nat) (s : ProgState) :
    usbio_write2 writeRet reads port data s =
      usbio_write2 writeRet [] port data s ∧
    (∀ wr, writeRet = some wr →
      usbio_write2 writeRet reads port data s =
        Except.ok (wr, 0, ⟨(s.seqno + 1) % 256,
          s.writes ++ [mkReport2 port data s.seqno]⟩)) ∧
    (writeRet = none →
      usbio_write2 writeRet reads port data s = Except.error 1) := by
  refine ⟨rfl, fun wr hw => ?_, fun hw => ?_⟩ <;> subst hw <;> rfl

/-- C3 amended witness: a successful write with a non-empty reply stream
available returns with zero reads consumed. -/
theorem usbio_write2_no_polling_witness :
    usbio_write2 (some 64) [some (mkReport2 9 9 3)] 1 10 ⟨3, []⟩ =
      Except.ok (64, 0, ⟨4, [mkReport2 1 10 3]⟩) :=
  ((usbio_write2_no_polling (some 64) [some (mkReport2 9 9 3)] 1 10
    ⟨3, []⟩).2.1 64 rfl).trans (by rfl)

/-- C4: for every (vendor, product) pair, when the pair occurs in the
static allow-list `usbio_models`, `usbio_check` returns that entry's
protocol version; when no entry carries the pair, it returns -1. -/
theorem usbio_check_allowlist (v p : Nat) :
    (∀ m ∈ usbio_models, m.vendor = v → m.product = p →
        usbio_check v p = m.protocol_version) ∧
    ((∀ m ∈ usbio_models, ¬(m.vendor = v ∧ m.product = p)) →
        usbio_check v p = -1) := by
  constructor
  · intro m hm hv hp
    subst hv; subst hp
    exact usbio_check_of_mem m hm
  · exact usbio_check_not_mem v p

/-- C4 witness: the listed pair (0x1352, 0x0121) yields protocol version 2
and the unlisted pair (0x1352, 0x0122) yields -1. -/
theorem usbio_check_allowlist_witness :
    usbio_check 0x1352 0x0121 = 2 ∧ usbio_check 0x1352 0x0122 = -1 :=
  ⟨(usbio_check_allowlist 0x1352 0x0121).1 ⟨0x1352, 0x0121, 2⟩ (by decide)
      rfl rfl,
    (usbio_check_allowlist 0x1352 0x0122).2 (by decide)⟩

/-- C8: V1 (8-byte) report encoding per the spec (no V1 writer exists in
the source; `mkReport1` is modelled from the spec): port 0, value 0x0D,
sequence 5 gives the buffer [0x01, 0x0D, 0, 0, 0, 0, 0, 0x05], and with
port 1 the opcode byte becomes 0x02. -/
theorem v1_report_encoding :
    mkReport1 0 0x0D 5 = [0x01, 0x0D, 0, 0, 0, 0, 0, 0x05] ∧
    (mkReport1 1 0x0D 5)[0]? = some 0x02 := by decide

/-- Environment in which `/dev/uhid0` opens as descriptor 7 and reports the
allow-listed pair (0x1352, 0x0120); every other candidate fails to open. -/
def envFirstMatch : Env :=
  ⟨fun i => if i = 0 then some 7 else none, none,
    fun fd => if fd = 7 then some (0x1352, 0x0120) else none,
    some 64, some 64⟩

/-- Environment in which `/dev/uhid0` fails to open and `/dev/uhid1` opens
as descriptor 9 reporting the allow-listed pair (0x1352, 0x0121). -/
def envSecondMatch : Env :=
  ⟨fun i => if i = 1 then some 9 else none, none,
    fun fd => if fd = 9 then some (0x1352, 0x0121) else none,
    some 64, some 64⟩

/-- C5 counterexample: in an environment whose first candidate opens as
descriptor 7 with the allow-listed pair (0x1352, 0x0120) of protocol
version 2, `usbio_lookup` returns the file descriptor 7 — not the protocol
version 2 the claim says it returns.  The version computed by `usbio_check`
inside `usbio_open` is compared against -1 and discarded (usbioctl.c lines
104-106); `usbio_lookup`'s own comment reads "return file descriptor if
found". -/
theorem usbio_lookup_returns_handle_cex :
    usbio_lookup envFirstMatch = Except.ok 7 ∧
    usbio_check 0x1352 0x0120 = 2 ∧
    ¬ usbio_lookup envFirstMatch = Except.ok 2 := by
  refine ⟨rfl, rfl, fun h => ?_⟩
  rw [show usbio_lookup envFirstMatch = Except.ok 7 from rfl] at h
  exact absurd (Except.ok.inj h) (by decide)

/-- C5 amended: `usbio_lookup` iterates candidate indices 0 through 9 in
order, attempting to open each and querying its identity; it returns upon
the first candidate whose (vendor, product) pair matches the allow-list,
keeping that handle and returning it (the file descriptor — the protocol
version is verified but discarded, not returned); candidates that fail to
open or do not match are closed/skipped and iteration continues; if all
ten candidates are exhausted without a match, the process terminates with
a diagnostic and exit code 1. -/
theorem usbio_lookup_first_match (env : Env) :
    (∀ fd, usbio_lookup env = Except.ok fd →
      ∃ i, i < 10 ∧
        usbio_open_io (env.uhidOpen i) env.ioctl = .matched fd ∧
        ∀ j, j < i → skipped env j) ∧
    ((∀ i, i < 10 → skipped env i) →
      usbio_lookup env = Except.error .notFound ∧
        Fatal.notFound.exitCode = 1) := by
  constructor
  · intro fd h
    obtain ⟨i, hi1, hi2, hi3, hi4⟩ := usbio_lookup_go_ok env 10 0 fd h
    exact ⟨i, by omega, hi3, fun j hj => hi4 j (Nat.zero_le j) hj⟩
  · intro h
    exact ⟨usbio_lookup_go_err env 10 0 (fun i _ hi => h i (by omega)), rfl⟩

/-- C5 witness: in `envSecondMatch` the locator skips the unopenable
candidate 0 and returns the handle 9 found at candidate 1. -/
theorem usbio_lookup_first_match_witness :
    ∃ i, i < 10 ∧
      usbio_open_io (envSecondMatch.uhidOpen i) envSecondMatch.ioctl =
        .matched 9 ∧
      ∀ j, j < i → skipped envSecondMatch j :=
  (usbio_lookup_first_match envSecondMatch).1 9 rfl

/-- Environment with no USB-IO device anywhere: every open fails. -/
def envNone : Env := ⟨fun _ => none, none, fun _ => none, none, none⟩

/-- Environment for the `-f` override path: the named device opens as
descriptor 3 but reports the pair (0x1234, 0x5678), which is not in the
allow-list. -/
def envBadOverride : Env :=
  ⟨fun _ => none, some 3, fun _ => some (0x1234, 0x5678), some 64, some 64⟩

/-- C6: a run with value 15 on the masked 4-bit port (port 2, the default)
performs exactly two write exchanges with consecutive sequence numbers: the
first report carries the port's low nibble set to 0xF, the second (after
the sleep) carries 0x0. -/
theorem main_value15_port2 (fFlag : Bool) (env : Env) (fd r1 r2 : Nat)
    (s0 : ProgState)
    (hacq : acquire fFlag env = Except.ok fd)
    (hw1 : env.w1 = some r1) (hw2 : env.w2 = some r2) :
    main_run fFlag none 1 15 env s0 =
      (0, ⟨(s0.seqno + 2) % 256,
        s0.writes ++ [mkReport2 2 15 s0.seqno,
          mkReport2 2 0 ((s0.seqno + 1) % 256)]⟩) ∧
    (mkReport2 2 15 s0.seqno)[2]? = some 0xF ∧
    (mkReport2 2 0 ((s0.seqno + 1) % 256))[2]? = some 0 ∧
    (mkReport2 2 15 s0.seqno)[63]? = some (s0.seqno % 256) ∧
    (mkReport2 2 0 ((s0.seqno + 1) % 256))[63]? =
      some ((s0.seqno + 1) % 256) := by
  refine ⟨?_, ?_, ?_, mkReport2_get63 2 15 s0.seqno, ?_⟩
  · simp only [main_run, pOK, hacq, hw1, hw2, usbio_write2, DEFAULT_PORT,
      USBIO_PORT2_MASK]
    norm_num
    exact ⟨rfl, rfl⟩
  · rw [mkReport2_get2]
  · rw [mkReport2_get2]
  · rw [mkReport2_get63]
    exact congrArg some (by omega)

/-- C6 witness: starting from sequence number 3 in an environment whose
first candidate matches, the run writes reports with sequence bytes 3 and
4 and exits 0. -/
theorem main_value15_port2_witness :
    main_run false none 1 15 envFirstMatch ⟨3, []⟩ =
      (0, ⟨5, [mkReport2 2 15 3, mkReport2 2 0 4]⟩) :=
  (main_value15_port2 false envFirstMatch 7 64 64 ⟨3, []⟩ rfl rfl rfl).1.trans
    rfl

/-- C7: the exit code is 2 on usage error (a `-p` value other than 1 or 2,
or a positional argument count other than 1); every fatal device
acquisition failure exits 1 (device not found after exhausting all
candidates, `-f` open failure or mismatch, or an ioctl failure); a failed
`write` syscall after acquisition exits 1; the full successful run exits
0. -/
theorem exit_code_taxonomy (fFlag : Bool) (pArg : Option Int)
    (n value : Nat) (env : Env) (s0 : ProgState) :
    ((∃ v, pArg = some v ∧ v ≠ 1 ∧ v ≠ 2) →
      (main_run fFlag pArg n value env s0).1 = 2) ∧
    (pOK pArg = true → n ≠ 1 → (main_run fFlag pArg n value env s0).1 = 2) ∧
    (∀ c, acquire fFlag env = Except.error c → c = 1) ∧
    (pOK pArg = true → n = 1 → ∀ c, acquire fFlag env = Except.error c →
      (main_run fFlag pArg n value env s0).1 = 1) ∧
    (pOK pArg = true → n = 1 → ∀ fd, acquire fFlag env = Except.ok fd →
      env.w1 = none → (main_run fFlag pArg n value env s0).1 = 1) ∧
    (pOK pArg = true → n = 1 → ∀ fd r1, acquire fFlag env = Except.ok fd →
      env.w1 = some r1 → env.w2 = none →
      (main_run fFlag pArg n value env s0).1 = 1) ∧
    (pOK pArg = true → n = 1 → ∀ fd r1 r2, acquire fFlag env = Except.ok fd →
      env.w1 = some r1 → env.w2 = some r2 →
      (main_run fFlag pArg n value env s0).1 = 0) := by
  have hacq1 : ∀ c, acquire fFlag env = Except.error c → c = 1 := by
    intro c hc
    cases fFlag with
    | true =>
        unfold acquire at hc
        cases h : usbio_open_io env.overrideOpen env.ioctl <;>
          rw [h] at hc <;> simp_all
    | false =>
        unfold acquire at hc
        cases h : usbio_lookup env with
        | ok fd => rw [h] at hc; simp_all
        | error f => rw [h] at hc; cases f <;> simp_all [Fatal.exitCode]
  refine ⟨?_, ?_, hacq1, ?_, ?_, ?_, ?_⟩
  · rintro ⟨v, rfl, hv1, hv2⟩
    have hp : pOK (some v) = false := by simp [pOK, hv1, hv2]
    simp [main_run, hp]
  · intro hp hn
    simp [main_run, hp, hn]
  · intro hp hn c hc
    subst hn
    have hc1 := hacq1 c hc
    subst hc1
    simp [main_run, hp, hc]
  · intro hp hn fd hacq hw1
    subst hn
    simp [main_run, hp, hacq, hw1, usbio_write2]
  · intro hp hn fd r1 hacq hw1 hw2
    subst hn
    simp [main_run, hp, hacq, hw1, hw2, usbio_write2]
  · intro hp hn fd r1 r2 hacq hw1 hw2
    subst hn
    simp [main_run, hp, hacq, hw1, hw2, usbio_write2]

/-- C7 witness: a bad `-p` value exits 2, a deviceless environment exits 1,
and a successful run exits 0. -/
theorem exit_code_taxonomy_witness :
    (main_run false (some 5) 1 0 envNone ⟨0, []⟩).1 = 2 ∧
    (main_run false none 1 0 envNone ⟨0, []⟩).1 = 1 ∧
    (main_run false none 1 15 envFirstMatch ⟨0, []⟩).1 = 0 :=
  ⟨(exit_code_taxonomy false (some 5) 1 0 envNone ⟨0, []⟩).1
      ⟨5, rfl, by decide, by decide⟩,
    (exit_code_taxonomy false none 1 0 envNone ⟨0, []⟩).2.2.2.1 rfl rfl 1 rfl,
    (exit_code_taxonomy false none 1 15 envFirstMatch ⟨0, []⟩).2.2.2.2.2.2
      rfl rfl 7 64 64 rfl rfl rfl⟩

/-- C9: with a `-f` device-path override, the allow-list identity check
still applies: a device whose (vendor, product) pair is not in
`usbio_models` is rejected — `usbio_open` closes the descriptor
(`OpenOutcome.mismatch`) — and the process exits with code 1 having written
nothing, exactly as if no device had been found. -/
theorem f_flag_allowlist_enforced (env : Env) (fd v p : Nat)
    (pArg : Option Int) (value : Nat) (s0 : ProgState)
    (hp : pOK pArg = true)
    (hov : env.overrideOpen = some fd)
    (hio : env.ioctl fd = some (v, p))
    (hnm : ∀ m ∈ usbio_models, ¬(m.vendor = v ∧ m.product = p)) :
    usbio_open_io env.overrideOpen env.ioctl = .mismatch fd ∧
    main_run true pArg 1 value env s0 = (1, s0) := by
  have hchk := usbio_check_not_mem v p hnm
  have hopen : usbio_open_io env.overrideOpen env.ioctl = .mismatch fd := by
    simp [usbio_open_io, hov, hio, hchk]
  refine ⟨hopen, ?_⟩
  have hacq : acquire true env = Except.error 1 := by
    simp [acquire, hopen]
  simp [main_run, hp, hacq]

/-- C9 witness: the unlisted pair (0x1234, 0x5678) behind `-f` is closed
and the run exits 1. -/
theorem f_flag_allowlist_enforced_witness :
    usbio_open_io envBadOverride.overrideOpen envBadOverride.ioctl =
      OpenOutcome.mismatch 3 ∧
    main_run true none 1 15 envBadOverride ⟨0, []⟩ = (1, ⟨0, []⟩) :=
  f_flag_allowlist_enforced envBadOverride 3 0x1234 0x5678 none 15 ⟨0, []⟩
    rfl rfl rfl (by decide)

/-- C10: the low-nibble mask `USBIO_PORT2_MASK` is applied only when the
selected port is 2: a run with port 1 places the data byte into report
byte 2 unmodified. -/
theorem port1_no_mask (fFlag : Bool) (env : Env) (fd r1 r2 value : Nat)
    (s0 : ProgState) (hv : value < 256)
    (hacq : acquire fFlag env = Except.ok fd)
    (hw1 : env.w1 = some r1) (hw2 : env.w2 = some r2) :
    (main_run fFlag (some 1) 1 value env s0).2.writes =
      s0.writes ++ [mkReport2 1 value s0.seqno,
        mkReport2 1 0 ((s0.seqno + 1) % 256)] ∧
    (mkReport2 1 value s0.seqno)[2]? = some value := by
  constructor
  · simp only [main_run, pOK, hacq, hw1, hw2, usbio_write2]
    norm_num
    rw [Nat.mod_eq_of_lt hv]
  · rw [mkReport2_get2, Nat.mod_eq_of_lt hv]

/-- C10 witness: on port 1 the value 0xF3 — which the port-2 mask would cut
to 0x03 — reaches report byte 2 unmodified. -/
theorem port1_no_mask_witness :
    (main_run false (some 1) 1 0xF3 envFirstMatch ⟨0, []⟩).2.writes =
      [mkReport2 1 0xF3 0, mkReport2 1 0 1] ∧
    (mkReport2 1 0xF3 0)[2]? = some 0xF3 ∧
    (0xF3 : Nat) &&& USBIO_PORT2_MASK ≠ 0xF3 :=
  ⟨(port1_no_mask false envFirstMatch 7 64 64 0xF3 ⟨0, []⟩ (by decide)
      rfl rfl rfl).1.trans rfl,
    (port1_no_mask false envFirstMatch 7 64 64 0xF3 ⟨0, []⟩ (by decide)
      rfl rfl rfl).2,
    by decide⟩

end Usbioctl
